import Mathlib

/-!
Shallow embedding of the authentication and follow-request core of a
NestJS social-networking backend (AuthenticationService and
ProfileService), together with proofs of the specified properties.

Modelling conventions:
- The relational store is a record of lists of rows (one list per table),
  threaded explicitly through every operation.
- Each service method becomes a function of type
  Db -> ... -> Except Err A × Db: the Except carries the thrown
  HTTP exception or the returned value, and the second component is the
  store as left behind by the call (writes performed before a throw
  persist, as in the source, which performs no rollback outside of the
  one explicit transaction).
- Opaque random token generation (uuidv4, nanoid) is modelled as a
  fresh-counter supply in the store: each draw returns the current
  counter value and bumps it, so draws are pairwise distinct.
- bcrypt is an external collaborator; it is modelled as a deterministic
  tagged hash: hashing prepends a salt header to the plaintext, and
  compare re-derives the hash. This preserves the two properties the
  code relies on: compare(p, hash(p)) = true, and the hash is never
  equal to the plaintext.
- Timestamps are naturals (milliseconds); the current time is passed as
  an explicit argument wherever the source calls new Date().
-/

/-- Role enum of the user model: Admin or User. -/
inductive Role where
  | Admin : Role
  | User : Role
deriving DecidableEq, Repr

/-- Row of the users table: id, unique email, hashed password, names,
role, privacy flag, profile picture reference. -/
structure UserRow where
  id : Nat
  email : String
  password : String
  firstName : String
  lastName : String
  role : Role
  is_private : Bool
  profile_picture : String
deriving DecidableEq, Repr

/-- Row of the refreshToken table: at most one per user, an opaque token
value and an absolute expiry. -/
structure RefreshTokenRow where
  id : Nat
  userId : Nat
  token : Nat
  expiryDate : Nat
deriving DecidableEq, Repr

/-- Row of the resetToken table: one-to-many per user, an opaque token
value and an absolute expiry. -/
structure ResetTokenRow where
  id : Nat
  token : Nat
  userId : Nat
  expiryDate : Nat
deriving DecidableEq, Repr

/-- Row of the followers table: accepted directional edge, unique per
ordered pair (followerId, followingId). -/
structure FollowerRow where
  id : Nat
  followerId : Nat
  followingId : Nat
deriving DecidableEq, Repr

/-- Row of the followRequests table: pending directional edge, unique per
ordered pair (requesterId, targetId). -/
structure FollowRequestRow where
  id : Nat
  requesterId : Nat
  targetId : Nat
deriving DecidableEq, Repr

/-- The relational store plus the fresh-counter supplies: nextId models
autoincrement row ids, nonce models the randomness consumed by uuidv4
and nanoid, outbox records mails handed to the mail collaborator. -/
structure Db where
  users : List UserRow
  refreshToken : List RefreshTokenRow
  resetToken : List ResetTokenRow
  followers : List FollowerRow
  followRequests : List FollowRequestRow
  nextId : Nat
  nonce : Nat
  outbox : List (String × Nat)
deriving DecidableEq, Repr

/-- Errors thrown by the services, mirroring the NestJS exception
classes used by the source: each carries the message passed at the throw
site. internal wraps a caught exception, as the catch-all blocks of the
profile service do with InternalServerErrorException(error); dbError is
a storage-level failure such as a unique-constraint violation. -/
inductive Err where
  | conflict : String → Err
  | unauthorized : String → Err
  | notFound : String → Err
  | badRequest : String → Err
  | internal : Err → Err
  | dbError : String → Err
deriving DecidableEq, Repr

/-- Cost factor for hashing: SALT_ROUNDS environment default of 10. -/
def saltRounds : Nat := 10

/-- Modelled external collaborator bcrypt.hash: deterministic tagged
hash prepending a salt header to the plaintext. -/
def bcryptHash (cost : Nat) (password : String) : String :=
  "$2b$" ++ toString cost ++ "$" ++ password

/-- Modelled external collaborator bcrypt.compare: re-derives the hash
and compares. -/
def bcryptCompare (password hash : String) : Bool :=
  hash == bcryptHash saltRounds password

/-- Access token issued by jwtService.sign: a signed claim carrying the
user id, with a one hour expiry option. -/
structure AccessToken where
  userId : Nat
  expiresIn : String
deriving DecidableEq, Repr

/-- jwtService.sign with payload userId and expiresIn one hour. -/
def jwtSign (userId : Nat) : AccessToken :=
  { userId := userId, expiresIn := "1h" }

/-- Three days in milliseconds, the refresh-token lifetime. -/
def threeDaysMs : Nat := 3 * 24 * 60 * 60 * 1000

/-- One hour in milliseconds, the reset-token lifetime. -/
def oneHourMs : Nat := 60 * 60 * 1000

/-- User record with the password field stripped, as returned by
register and login. -/
structure PublicUser where
  id : Nat
  email : String
  firstName : String
  lastName : String
  role : Role
  is_private : Bool
  profile_picture : String
deriving DecidableEq, Repr

/-- Removing the password from the response. -/
def stripPassword (u : UserRow) : PublicUser :=
  { id := u.id, email := u.email, firstName := u.firstName,
    lastName := u.lastName, role := u.role, is_private := u.is_private,
    profile_picture := u.profile_picture }

/-- Input of register: RegisterDTO. -/
structure RegisterDTO where
  firstName : String
  lastName : String
  email : String
  password : String
  role : Role
deriving DecidableEq, Repr

/-- Input of login: LoginDTO. -/
structure LoginDTO where
  email : String
  password : String
deriving DecidableEq, Repr

/-- Result of a successful login: the user with password stripped plus
both tokens. -/
structure LoginResult where
  user : PublicUser
  accessToken : AccessToken
  refreshToken : Nat
deriving DecidableEq, Repr

/-- AuthenticationService.register: Conflict if the email already
exists, otherwise hash the password and create the user with empty
profile picture, returning it with the password stripped. -/
def register (db : Db) (dto : RegisterDTO) : Except Err PublicUser × Db :=
  match db.users.find? (fun u => u.email == dto.email) with
  | some _ => (.error (.conflict "User already exists"), db)
  | none =>
    let hashedPassword := bcryptHash saltRounds dto.password
    let newUser : UserRow :=
      { id := db.nextId, email := dto.email, password := hashedPassword,
        firstName := dto.firstName, lastName := dto.lastName,
        role := dto.role, is_private := false, profile_picture := "" }
    (.ok (stripPassword newUser),
      { db with users := db.users ++ [newUser], nextId := db.nextId + 1 })

/-- prisma.refreshToken.upsert keyed by userId: overwrite the token and
expiry of the existing row, or create one. -/
def refreshTokenUpsert (db : Db) (userId tok expiry : Nat) : Db :=
  if db.refreshToken.any (fun r => r.userId == userId) then
    { db with refreshToken := db.refreshToken.map (fun r =>
        if r.userId == userId then
          { r with token := tok, expiryDate := expiry } else r) }
  else
    { db with
      refreshToken :=
        db.refreshToken ++
          [{ id := db.nextId, userId := userId, token := tok, expiryDate := expiry }],
      nextId := db.nextId + 1 }

/-- AuthenticationService.login: Unauthorized with the one shared
message if the email is unknown or the password does not match;
otherwise issue tokens, upsert the refresh-token row, and return the
user (password stripped) with the tokens. -/
def login (db : Db) (dto : LoginDTO) (now : Nat) : Except Err LoginResult × Db :=
  match db.users.find? (fun u => u.email == dto.email) with
  | none => (.error (.unauthorized "Invalid credentials"), db)
  | some user =>
    if bcryptCompare dto.password user.password then
      let accessToken := jwtSign user.id
      let refreshToken := db.nonce
      let db1 := { db with nonce := db.nonce + 1 }
      let db2 := refreshTokenUpsert db1 user.id refreshToken (now + threeDaysMs)
      (.ok { user := stripPassword user, accessToken := accessToken,
             refreshToken := refreshToken }, db2)
    else
      (.error (.unauthorized "Invalid credentials"), db)

/-- AuthenticationService.refreshTokens: find a stored row whose token
matches and whose expiry is not past; Unauthorized if none; otherwise
issue new tokens and overwrite that row (rotation). -/
def refreshTokens (db : Db) (token now : Nat) : Except Err (AccessToken × Nat) × Db :=
  match db.refreshToken.find? (fun r => r.token == token && now ≤ r.expiryDate) with
  | none => (.error (.unauthorized "Invalid or expired refresh token"), db)
  | some fetched =>
    let accessToken := jwtSign fetched.userId
    let newRefresh := db.nonce
    let db1 := { db with nonce := db.nonce + 1 }
    let db2 := { db1 with refreshToken := db1.refreshToken.map (fun r =>
        if r.id == fetched.id then
          { r with token := newRefresh, expiryDate := now + threeDaysMs }
        else r) }
    (.ok (accessToken, newRefresh), db2)

/-- AuthenticationService.forgotPassword: if the email exists, create a
reset token row with a one hour expiry and hand the mail to the mail
collaborator; in every case return the same generic message. -/
def forgotPassword (db : Db) (email : String) (now : Nat) : Except Err String × Db :=
  match db.users.find? (fun u => u.email == email) with
  | some user =>
    let resetTok := db.nonce
    let row : ResetTokenRow :=
      { id := db.nextId, token := resetTok, userId := user.id,
        expiryDate := now + oneHourMs }
    (.ok "If user exists, they will receive an email",
      { db with
        resetToken := db.resetToken ++ [row],
        nextId := db.nextId + 1,
        nonce := db.nonce + 1,
        outbox := db.outbox ++ [(email, resetTok)] })
  | none => (.ok "If user exists, they will receive an email", db)

/-- AuthenticationService.resetPassword: Unauthorized if no matching
non-expired reset-token row, NotFound if the owning user vanished;
otherwise hash and store the new password. The reset-token table is not
written. -/
def resetPassword (db : Db) (resetTok : Nat) (newPassword : String) (now : Nat) :
    Except Err String × Db :=
  match db.resetToken.find? (fun t => t.token == resetTok && now ≤ t.expiryDate) with
  | none => (.error (.unauthorized "Invalid link"), db)
  | some token =>
    match db.users.find? (fun u => u.id == token.userId) with
    | none => (.error (.notFound "User not found"), db)
    | some user =>
      let hashedPassword := bcryptHash saltRounds newPassword
      (.ok "Password reset successfully.",
        { db with users := db.users.map (fun u =>
            if u.id == user.id then { u with password := hashedPassword } else u) })

/-- prisma.followers.create: fails with a storage unique-constraint
error if the ordered pair already has an edge, else appends the row. -/
def followersCreate (db : Db) (followerId followingId : Nat) : Except Err Db :=
  if db.followers.any (fun f => f.followerId == followerId && f.followingId == followingId) then
    .error (.dbError "Unique constraint failed on followers followerId_followingId")
  else
    .ok { db with
          followers :=
            db.followers ++
              [{ id := db.nextId, followerId := followerId, followingId := followingId }],
          nextId := db.nextId + 1 }

/-- prisma.followRequests.create: fails with a storage unique-constraint
error if the ordered pair already has a pending request, else appends
the row. -/
def followRequestsCreate (db : Db) (requesterId targetId : Nat) : Except Err Db :=
  if db.followRequests.any (fun r => r.requesterId == requesterId && r.targetId == targetId) then
    .error (.dbError "Unique constraint failed on followRequests requesterId_targetId")
  else
    .ok { db with
          followRequests :=
            db.followRequests ++
              [{ id := db.nextId, requesterId := requesterId, targetId := targetId }],
          nextId := db.nextId + 1 }

/-- prisma.followRequests.delete keyed by id: fails with a storage error
if no row has the id, else removes it. -/
def followRequestsDeleteById (db : Db) (reqId : Nat) : Except Err Db :=
  if db.followRequests.any (fun r => r.id == reqId) then
    .ok { db with followRequests := db.followRequests.filter (fun r => r.id != reqId) }
  else
    .error (.dbError "Record to delete does not exist")

/-- The catch-all of the profile-service methods: a try block whose
result is passed through on success, while any exception thrown inside
is caught and re-thrown wrapped in InternalServerErrorException(error).
The store as left at the throw point is kept (no rollback). -/
def tryCatchInternal {α : Type} (r : Except Err α × Db) : Except Err α × Db :=
  match r with
  | (.ok a, db) => (.ok a, db)
  | (.error e, db) => (.error (.internal e), db)

/-- Body of the try block of ProfileService.requestToFollow: NotFound if
the target is absent; public target: BadRequest if already following,
else create the Follower edge; private target: BadRequest if a request
is already pending, else create the FollowRequest. -/
def requestToFollowInner (db : Db) (targetId userId : Nat) : Except Err String × Db :=
  match db.users.find? (fun u => u.id == targetId) with
  | none => (.error (.notFound "User not found"), db)
  | some targetUser =>
    if !targetUser.is_private then
      match db.followers.find? (fun f => f.followerId == userId && f.followingId == targetId) with
      | some _ => (.error (.badRequest "You are already following this user."), db)
      | none =>
        match followersCreate db userId targetId with
        | .error e => (.error e, db)
        | .ok db1 => (.ok "You are now following this user.", db1)
    else
      match db.followRequests.find? (fun r => r.requesterId == userId && r.targetId == targetId) with
      | some _ => (.error (.badRequest "Follow request already sent."), db)
      | none =>
        match followRequestsCreate db userId targetId with
        | .error e => (.error e, db)
        | .ok db1 => (.ok "Follow request sent.", db1)

/-- ProfileService.requestToFollow: the try body wrapped by the
catch-all that re-throws every exception as InternalServerError. -/
def requestToFollow (db : Db) (targetId userId : Nat) : Except Err String × Db :=
  tryCatchInternal (requestToFollowInner db targetId userId)

/-- The transaction of acceptFollowRequest: create the Follower edge and
delete the FollowRequest row; if either operation fails the whole
transaction yields an error and no partial state escapes. -/
def acceptTransaction (db : Db) (userId targetId reqId : Nat) : Except Err Db :=
  match followersCreate db userId targetId with
  | .error e => .error e
  | .ok db1 => followRequestsDeleteById db1 reqId

/-- Body of the try block of ProfileService.acceptFollowRequest:
BadRequest if no matching FollowRequest, else run the transaction; a
transaction failure leaves the store as it was (rollback). -/
def acceptFollowRequestInner (db : Db) (targetId userId : Nat) : Except Err String × Db :=
  match db.followRequests.find? (fun r => r.requesterId == userId && r.targetId == targetId) with
  | none => (.error (.badRequest "No follow request found."), db)
  | some request =>
    match acceptTransaction db userId targetId request.id with
    | .error e => (.error e, db)
    | .ok db2 => (.ok "Follow request accepted.", db2)

/-- ProfileService.acceptFollowRequest: the try body wrapped by the
catch-all that re-throws every exception as InternalServerError. -/
def acceptFollowRequest (db : Db) (targetId userId : Nat) : Except Err String × Db :=
  tryCatchInternal (acceptFollowRequestInner db targetId userId)

/-- Body of the try block of ProfileService.unfollowUser:
deleteMany of every Follower edge of the ordered pair; never throws. -/
def unfollowUserInner (db : Db) (targetId userId : Nat) : Except Err String × Db :=
  (.ok "Unfollowed successfully.",
    { db with followers := db.followers.filter (fun f =>
        !(f.followerId == userId && f.followingId == targetId)) })

/-- ProfileService.unfollowUser: the try body wrapped by the catch-all. -/
def unfollowUser (db : Db) (targetId userId : Nat) : Except Err String × Db :=
  tryCatchInternal (unfollowUserInner db targetId userId)

/-- The modelled bcrypt hash is never equal to the plaintext: the salt
header strictly lengthens the string. -/
theorem bcryptHash_ne_plaintext (cost : Nat) (p : String) : bcryptHash cost p ≠ p := by
  intro h
  have h2 := congrArg String.length h
  rw [show bcryptHash cost p = (("$2b$" ++ toString cost) ++ "$") ++ p from rfl,
    String.length_append, String.length_append, String.length_append] at h2
  have h4 : ("$2b$" : String).length = 4 := rfl
  have h1 : ("$" : String).length = 1 := rfl
  omega

/-- An empty store, used as a concrete starting state. -/
def dbEmpty : Db :=
  { users := [], refreshToken := [], resetToken := [], followers := [],
    followRequests := [], nextId := 1, nonce := 0, outbox := [] }

/-- C7: forgotPassword always returns the same generic success message,
whether or not the email exists in the store: calls with any two emails
and any two clock values return the identical successful value. -/
theorem forgotPassword_uniform_response (db : Db) (email1 email2 : String)
    (now1 now2 : Nat) :
    (forgotPassword db email1 now1).1 = .ok "If user exists, they will receive an email" ∧
    (forgotPassword db email1 now1).1 = (forgotPassword db email2 now2).1 := by
  have key : ∀ (e : String) (n : Nat),
      (forgotPassword db e n).1 = .ok "If user exists, they will receive an email" := by
    intro e n
    rcases hfind : db.users.find? (fun u => u.email == e) with _ | user <;>
      simp [forgotPassword, hfind]
  exact ⟨key email1 now1, by rw [key email1 now1, key email2 now2]⟩

/-- C9: unfollowUser is idempotent and never errors: for every store and
ordered pair it succeeds, and a second call succeeds with the same
message and leaves the store exactly as the first call did. -/
theorem unfollowUser_idempotent (db : Db) (targetId userId : Nat) :
    ∃ db1 : Db,
      unfollowUser db targetId userId = (.ok "Unfollowed successfully.", db1) ∧
      unfollowUser db1 targetId userId = (.ok "Unfollowed successfully.", db1) := by
  refine ⟨_, rfl, ?_⟩
  simp only [unfollowUser, unfollowUserInner, tryCatchInternal]
  rw [List.filter_filter]
  simp

/-- C1: the follow-state-machine error kinds are NOT surfaced directly:
the catch-all of the profile service re-throws every exception wrapped
in InternalServerError. Concretely, requestToFollow on an absent target
terminates with InternalServerError wrapping the NotFound, and
acceptFollowRequest with no matching FollowRequest terminates with
InternalServerError wrapping the BadRequest. -/
theorem followOps_wrap_errors_in_internal :
    requestToFollow dbEmpty 99 1 =
      (.error (.internal (.notFound "User not found")), dbEmpty) ∧
    acceptFollowRequest dbEmpty 5 6 =
      (.error (.internal (.badRequest "No follow request found.")), dbEmpty) := by
  constructor <;> rfl

/-- C10: register persists the caller-supplied role verbatim: for any
fresh email the created user row carries exactly the role of the DTO,
with no restriction or default, so a registration carrying the Admin
role creates an Admin account. -/
theorem register_role_verbatim (db : Db) (dto : RegisterDTO)
    (hfresh : db.users.find? (fun u => u.email == dto.email) = none) :
    ∃ newUser : UserRow,
      register db dto =
        (.ok (stripPassword newUser),
          { db with users := db.users ++ [newUser], nextId := db.nextId + 1 }) ∧
      newUser.role = dto.role := by
  refine ⟨{ id := db.nextId, email := dto.email,
            password := bcryptHash saltRounds dto.password,
            firstName := dto.firstName, lastName := dto.lastName,
            role := dto.role, is_private := false, profile_picture := "" }, ?_, rfl⟩
  simp [register, hfresh]

/-- Witness for C10 at a concrete input: an unauthenticated registration
carrying the Admin role on an empty store is accepted and stores role
Admin. -/
theorem register_role_verbatim_witness :
    ∃ newUser : UserRow,
      register dbEmpty
          { firstName := "Eve", lastName := "A", email := "eve@example.com",
            password := "secret", role := Role.Admin } =
        (.ok (stripPassword newUser),
          { dbEmpty with
            users := dbEmpty.users ++ [newUser], nextId := dbEmpty.nextId + 1 }) ∧
      newUser.role = Role.Admin :=
  register_role_verbatim dbEmpty
    { firstName := "Eve", lastName := "A", email := "eve@example.com",
      password := "secret", role := Role.Admin } rfl

/-- C6: the two login failure causes are indistinguishable: an unknown
email and a known email with a mismatching password both terminate with
the identical error kind (Unauthorized) and the identical message,
leaving the store untouched. -/
theorem login_failures_indistinguishable (db : Db) (dto1 dto2 : LoginDTO)
    (now1 now2 : Nat) (u : UserRow)
    (h1 : db.users.find? (fun v => v.email == dto1.email) = none)
    (h2 : db.users.find? (fun v => v.email == dto2.email) = some u)
    (h3 : bcryptCompare dto2.password u.password = false) :
    login db dto1 now1 = (.error (.unauthorized "Invalid credentials"), db) ∧
    login db dto2 now2 = (.error (.unauthorized "Invalid credentials"), db) := by
  constructor
  · simp [login, h1]
  · simp [login, h2, h3]

/-- A store holding one user, used as a concrete state for witnesses. -/
def dbOneUser : Db :=
  { dbEmpty with
    users := [{ id := 1, email := "alice@example.com",
                password := bcryptHash saltRounds "correct-pw",
                firstName := "Alice", lastName := "B", role := Role.User,
                is_private := false, profile_picture := "" }],
    nextId := 2 }

/-- Witness for C6 at a concrete input: login with an unknown email and
login with the known email but a wrong password produce the identical
terminal error. -/
theorem login_failures_indistinguishable_witness :
    login dbOneUser { email := "nobody@example.com", password := "x" } 5 =
      (.error (.unauthorized "Invalid credentials"), dbOneUser) ∧
    login dbOneUser { email := "alice@example.com", password := "wrong-pw" } 5 =
      (.error (.unauthorized "Invalid credentials"), dbOneUser) :=
  login_failures_indistinguishable dbOneUser
    { email := "nobody@example.com", password := "x" }
    { email := "alice@example.com", password := "wrong-pw" } 5 5
    { id := 1, email := "alice@example.com",
      password := bcryptHash saltRounds "correct-pw",
      firstName := "Alice", lastName := "B", role := Role.User,
      is_private := false, profile_picture := "" }
    (by decide) (by decide) (by decide)

/-- C5: register fails Conflict leaving the store unchanged when the
email already exists; on a fresh email it persists exactly one new user
whose stored password is the bcrypt hash of the plaintext and never the
plaintext itself, whose profile picture is empty, and returns that user
with the password stripped. -/
theorem register_spec (db : Db) (dto : RegisterDTO) :
    (∀ u : UserRow, db.users.find? (fun v => v.email == dto.email) = some u →
      register db dto = (.error (.conflict "User already exists"), db)) ∧
    (db.users.find? (fun v => v.email == dto.email) = none →
      ∃ newUser : UserRow,
        register db dto =
          (.ok (stripPassword newUser),
            { db with users := db.users ++ [newUser], nextId := db.nextId + 1 }) ∧
        newUser.password = bcryptHash saltRounds dto.password ∧
        newUser.password ≠ dto.password ∧
        newUser.profile_picture = "" ∧
        newUser.email = dto.email) := by
  constructor
  · intro u hu
    simp [register, hu]
  · intro hfresh
    refine ⟨{ id := db.nextId, email := dto.email,
              password := bcryptHash saltRounds dto.password,
              firstName := dto.firstName, lastName := dto.lastName,
              role := dto.role, is_private := false, profile_picture := "" },
            ?_, rfl, bcryptHash_ne_plaintext saltRounds dto.password, rfl, rfl⟩
    simp [register, hfresh]

/-- Witness for C5 at concrete inputs: a duplicate registration on the
one-user store fails Conflict with the store unchanged, and a fresh
registration on the empty store persists the hashed-password user. -/
theorem register_spec_witness :
    register dbOneUser
        { firstName := "Alice", lastName := "C", email := "alice@example.com",
          password := "pw2", role := Role.User } =
      (.error (.conflict "User already exists"), dbOneUser) ∧
    ∃ newUser : UserRow,
      register dbEmpty
          { firstName := "Bob", lastName := "D", email := "bob@example.com",
            password := "pw3", role := Role.User } =
        (.ok (stripPassword newUser),
          { dbEmpty with
            users := dbEmpty.users ++ [newUser], nextId := dbEmpty.nextId + 1 }) ∧
      newUser.password = bcryptHash saltRounds "pw3" ∧
      newUser.password ≠ "pw3" ∧
      newUser.profile_picture = "" ∧
      newUser.email = "bob@example.com" :=
  ⟨(register_spec dbOneUser
      { firstName := "Alice", lastName := "C", email := "alice@example.com",
        password := "pw2", role := Role.User }).1
      { id := 1, email := "alice@example.com",
        password := bcryptHash saltRounds "correct-pw",
        firstName := "Alice", lastName := "B", role := Role.User,
        is_private := false, profile_picture := "" } (by decide),
   (register_spec dbEmpty
      { firstName := "Bob", lastName := "D", email := "bob@example.com",
        password := "pw3", role := Role.User }).2 rfl⟩

/-- C4: a successful resetPassword leaves every reset-token row in
place (the consumed token and all siblings), leaves every other table
untouched, and its only state change is the password of the owning
user. -/
theorem resetPassword_frame (db : Db) (tok : Nat) (newPassword : String) (now : Nat)
    (msg : String) (db1 : Db)
    (hok : resetPassword db tok newPassword now = (.ok msg, db1)) :
    db1.resetToken = db.resetToken ∧
    (∃ row ∈ db1.resetToken, row.token = tok ∧ now ≤ row.expiryDate) ∧
    db1.refreshToken = db.refreshToken ∧
    db1.followers = db.followers ∧
    db1.followRequests = db.followRequests ∧
    db1.outbox = db.outbox ∧
    db1.nextId = db.nextId ∧
    db1.nonce = db.nonce ∧
    (∃ user ∈ db.users,
      db1.users = db.users.map (fun u =>
        if u.id == user.id then
          { u with password := bcryptHash saltRounds newPassword }
        else u)) := by
  rcases hfind : db.resetToken.find? (fun t => t.token == tok && now ≤ t.expiryDate)
    with _ | row
  · simp only [resetPassword, hfind] at hok
    simp at hok
  · rcases huser : db.users.find? (fun u => u.id == row.userId) with _ | user
    · simp only [resetPassword, hfind, huser] at hok
      simp at hok
    · simp only [resetPassword, hfind, huser, Prod.mk.injEq, Except.ok.injEq] at hok
      obtain ⟨hmsg, hdb⟩ := hok
      subst hdb
      have hpred := List.find?_some hfind
      simp only [Bool.and_eq_true, beq_iff_eq, decide_eq_true_eq] at hpred
      exact ⟨rfl,
        ⟨row, List.mem_of_find?_eq_some hfind, hpred.1, hpred.2⟩,
        rfl, rfl, rfl, rfl, rfl, rfl,
        ⟨user, List.mem_of_find?_eq_some huser, rfl⟩⟩

/-- A store with one user and one valid reset token for that user. -/
def dbReset : Db :=
  { dbOneUser with
    resetToken := [{ id := 7, token := 42, userId := 1, expiryDate := 1000 }] }

/-- The store left by the witness call of resetPassword: only the
password of the user changed. -/
def dbResetAfter : Db :=
  { dbReset with
    users := [{ id := 1, email := "alice@example.com",
                password := bcryptHash saltRounds "new-pw",
                firstName := "Alice", lastName := "B", role := Role.User,
                is_private := false, profile_picture := "" }] }

/-- Witness for C4 at a concrete input: on a store with one user and one
valid reset token, resetPassword succeeds, every reset-token row and
every other table is unchanged, and only the password of the owning user
changed. -/
theorem resetPassword_frame_witness :
    dbResetAfter.resetToken = dbReset.resetToken ∧
    (∃ row ∈ dbResetAfter.resetToken, row.token = 42 ∧ 500 ≤ row.expiryDate) ∧
    dbResetAfter.refreshToken = dbReset.refreshToken ∧
    dbResetAfter.followers = dbReset.followers ∧
    dbResetAfter.followRequests = dbReset.followRequests ∧
    dbResetAfter.outbox = dbReset.outbox ∧
    dbResetAfter.nextId = dbReset.nextId ∧
    dbResetAfter.nonce = dbReset.nonce ∧
    (∃ user ∈ dbReset.users,
      dbResetAfter.users = dbReset.users.map (fun u =>
        if u.id == user.id then
          { u with password := bcryptHash saltRounds "new-pw" }
        else u)) :=
  resetPassword_frame dbReset 42 "new-pw" 500 "Password reset successfully."
    dbResetAfter rfl

/-- C8: with an existing target and no prior edge for the ordered pair,
requestToFollow on a public target creates exactly one Follower edge and
no FollowRequest row, and on a private target creates exactly one
FollowRequest row and no Follower edge. -/
theorem requestToFollow_creates (db : Db) (targetId userId : Nat) (target : UserRow)
    (htarget : db.users.find? (fun u => u.id == targetId) = some target)
    (hnoF : db.followers.find?
      (fun f => f.followerId == userId && f.followingId == targetId) = none)
    (hnoR : db.followRequests.find?
      (fun r => r.requesterId == userId && r.targetId == targetId) = none) :
    (target.is_private = false →
      requestToFollow db targetId userId =
        (.ok "You are now following this user.",
          { db with
            followers :=
              db.followers ++
                [{ id := db.nextId, followerId := userId, followingId := targetId }],
            nextId := db.nextId + 1 }) ∧
      (db.followers ++
          ([{ id := db.nextId, followerId := userId, followingId := targetId }] :
            List FollowerRow)).countP
        (fun f => f.followerId == userId && f.followingId == targetId) = 1) ∧
    (target.is_private = true →
      requestToFollow db targetId userId =
        (.ok "Follow request sent.",
          { db with
            followRequests :=
              db.followRequests ++
                [{ id := db.nextId, requesterId := userId, targetId := targetId }],
            nextId := db.nextId + 1 }) ∧
      (db.followRequests ++
          ([{ id := db.nextId, requesterId := userId, targetId := targetId }] :
            List FollowRequestRow)).countP
        (fun r => r.requesterId == userId && r.targetId == targetId) = 1) := by
  have hanyF : db.followers.any
      (fun f => f.followerId == userId && f.followingId == targetId) = false := by
    cases hany : db.followers.any
        (fun f => f.followerId == userId && f.followingId == targetId)
    · rfl
    · obtain ⟨x, hx, hpx⟩ := List.any_eq_true.mp hany
      exact absurd hpx (List.find?_eq_none.mp hnoF x hx)
  have hanyR : db.followRequests.any
      (fun r => r.requesterId == userId && r.targetId == targetId) = false := by
    cases hany : db.followRequests.any
        (fun r => r.requesterId == userId && r.targetId == targetId)
    · rfl
    · obtain ⟨x, hx, hpx⟩ := List.any_eq_true.mp hany
      exact absurd hpx (List.find?_eq_none.mp hnoR x hx)
  have hcF : db.followers.countP
      (fun f => f.followerId == userId && f.followingId == targetId) = 0 :=
    List.countP_eq_zero.mpr (List.find?_eq_none.mp hnoF)
  have hcR : db.followRequests.countP
      (fun r => r.requesterId == userId && r.targetId == targetId) = 0 :=
    List.countP_eq_zero.mpr (List.find?_eq_none.mp hnoR)
  constructor
  · intro hpub
    constructor
    · simp [requestToFollow, requestToFollowInner, tryCatchInternal, htarget, hpub,
        hnoF, followersCreate, hanyF]
    · rw [List.countP_append, hcF]
      simp
  · intro hpriv
    constructor
    · simp [requestToFollow, requestToFollowInner, tryCatchInternal, htarget, hpriv,
        hnoR, followRequestsCreate, hanyR]
    · rw [List.countP_append, hcR]
      simp

/-- A store holding one private user, used as a concrete state for
witnesses. -/
def dbPrivUser : Db :=
  { dbEmpty with
    users := [{ id := 3, email := "carol@example.com",
                password := bcryptHash saltRounds "pw", firstName := "Carol",
                lastName := "P", role := Role.User, is_private := true,
                profile_picture := "" }],
    nextId := 4 }

/-- Witness for C8 at concrete inputs: following the public user creates
exactly one Follower edge and leaves followRequests untouched; following
the private user creates exactly one FollowRequest and leaves followers
untouched. -/
theorem requestToFollow_creates_witness :
    (requestToFollow dbOneUser 1 2 =
      (.ok "You are now following this user.",
        { dbOneUser with
          followers :=
            dbOneUser.followers ++
              [{ id := dbOneUser.nextId, followerId := 2, followingId := 1 }],
          nextId := dbOneUser.nextId + 1 }) ∧
      (dbOneUser.followers ++
          ([{ id := dbOneUser.nextId, followerId := 2, followingId := 1 }] :
            List FollowerRow)).countP
        (fun f => f.followerId == 2 && f.followingId == 1) = 1) ∧
    (requestToFollow dbPrivUser 3 2 =
      (.ok "Follow request sent.",
        { dbPrivUser with
          followRequests :=
            dbPrivUser.followRequests ++
              [{ id := dbPrivUser.nextId, requesterId := 2, targetId := 3 }],
          nextId := dbPrivUser.nextId + 1 }) ∧
      (dbPrivUser.followRequests ++
          ([{ id := dbPrivUser.nextId, requesterId := 2, targetId := 3 }] :
            List FollowRequestRow)).countP
        (fun r => r.requesterId == 2 && r.targetId == 3) = 1) :=
  ⟨(requestToFollow_creates dbOneUser 1 2
      { id := 1, email := "alice@example.com",
        password := bcryptHash saltRounds "correct-pw",
        firstName := "Alice", lastName := "B", role := Role.User,
        is_private := false, profile_picture := "" } rfl rfl rfl).1 rfl,
   (requestToFollow_creates dbPrivUser 3 2
      { id := 3, email := "carol@example.com",
        password := bcryptHash saltRounds "pw", firstName := "Carol",
        lastName := "P", role := Role.User, is_private := true,
        profile_picture := "" } rfl rfl rfl).2 rfl⟩

/-- C3: under the pair-uniqueness constraint of the followRequests
table, a successful acceptFollowRequest leaves exactly one Follower edge
from the requester to the target and zero FollowRequest rows for that
pair, and both the edge creation and the request deletion happen in the
one returned store; a failing acceptFollowRequest leaves the store
exactly as it was (the transaction commits both writes or neither). -/
theorem acceptFollowRequest_spec (db : Db) (targetId userId : Nat)
    (hwf : ∀ r ∈ db.followRequests, ∀ s ∈ db.followRequests,
      r.requesterId = s.requesterId → r.targetId = s.targetId → r = s) :
    (∀ (msg : String) (db1 : Db),
      acceptFollowRequest db targetId userId = (.ok msg, db1) →
      ∃ req : FollowRequestRow,
        db.followRequests.find?
            (fun r => r.requesterId == userId && r.targetId == targetId) = some req ∧
        db1.followers =
          db.followers ++
            [{ id := db.nextId, followerId := userId, followingId := targetId }] ∧
        db1.followRequests = db.followRequests.filter (fun r => r.id != req.id) ∧
        db1.followers.countP
          (fun f => f.followerId == userId && f.followingId == targetId) = 1 ∧
        db1.followRequests.countP
          (fun r => r.requesterId == userId && r.targetId == targetId) = 0) ∧
    (∀ (e : Err) (db1 : Db),
      acceptFollowRequest db targetId userId = (.error e, db1) → db1 = db) := by
  constructor
  · intro msg db1 hok
    rcases hfind : db.followRequests.find?
        (fun r => r.requesterId == userId && r.targetId == targetId) with _ | req
    · simp only [acceptFollowRequest, acceptFollowRequestInner, tryCatchInternal,
        hfind] at hok
      simp at hok
    · have hreqmem : req ∈ db.followRequests := List.mem_of_find?_eq_some hfind
      have hreqpair := List.find?_some hfind
      simp only [Bool.and_eq_true, beq_iff_eq] at hreqpair
      rcases htr : acceptTransaction db userId targetId req.id with e | db2
      · simp only [acceptFollowRequest, acceptFollowRequestInner, tryCatchInternal,
          hfind, htr] at hok
        simp at hok
      · simp only [acceptFollowRequest, acceptFollowRequestInner, tryCatchInternal,
          hfind, htr, Prod.mk.injEq, Except.ok.injEq] at hok
        obtain ⟨hmsg, hdb⟩ := hok
        subst hdb
        rcases hany : db.followers.any
            (fun f => f.followerId == userId && f.followingId == targetId) with _ | _
        · have hdel : db.followRequests.any (fun r => r.id == req.id) = true :=
            List.any_eq_true.mpr ⟨req, hreqmem, by simp⟩
          simp only [acceptTransaction, followersCreate, hany, Bool.false_eq_true,
            if_false, followRequestsDeleteById] at htr
          simp only [hdel, if_true, Except.ok.injEq] at htr
          subst htr
          have hc0 : db.followers.countP
              (fun f => f.followerId == userId && f.followingId == targetId) = 0 := by
            refine List.countP_eq_zero.mpr ?_
            intro a ha
            intro hpa
            have hcontra : db.followers.any
                (fun f => f.followerId == userId && f.followingId == targetId) = true :=
              List.any_eq_true.mpr ⟨a, ha, hpa⟩
            rw [hany] at hcontra
            exact Bool.false_ne_true hcontra
          refine ⟨req, hfind, rfl, rfl, ?_, ?_⟩
          · rw [List.countP_append, hc0]
            simp
          · refine List.countP_eq_zero.mpr ?_
            intro a ha hpa
            have hamem : a ∈ db.followRequests := (List.mem_filter.mp ha).1
            have haid : (a.id != req.id) = true := (List.mem_filter.mp ha).2
            simp only [Bool.and_eq_true, beq_iff_eq] at hpa
            have : a = req := hwf a hamem req hreqmem
              (hpa.1.trans hreqpair.1.symm) (hpa.2.trans hreqpair.2.symm)
            subst this
            simp at haid
        · simp only [acceptTransaction, followersCreate, hany, if_true] at htr
          exact absurd htr (by simp)
  · intro e db1 herr
    rcases hfind : db.followRequests.find?
        (fun r => r.requesterId == userId && r.targetId == targetId) with _ | req
    · simp only [acceptFollowRequest, acceptFollowRequestInner, tryCatchInternal,
        hfind, Prod.mk.injEq] at herr
      exact herr.2.symm
    · rcases htr : acceptTransaction db userId targetId req.id with e2 | db2
      · simp only [acceptFollowRequest, acceptFollowRequestInner, tryCatchInternal,
          hfind, htr, Prod.mk.injEq] at herr
        exact herr.2.symm
      · simp only [acceptFollowRequest, acceptFollowRequestInner, tryCatchInternal,
          hfind, htr] at herr
        simp at herr

/-- A store holding one pending follow request from user 2 to user 3. -/
def dbAccept : Db :=
  { dbEmpty with
    followRequests := [{ id := 9, requesterId := 2, targetId := 3 }],
    nextId := 10 }

/-- The store left by the witness call of acceptFollowRequest: the edge
created and the request deleted, together. -/
def dbAcceptAfter : Db :=
  { dbAccept with
    followers := [{ id := 10, followerId := 2, followingId := 3 }],
    followRequests := [],
    nextId := 11 }

/-- Witness for C3 at a concrete input: accepting the pending request
leaves exactly one Follower edge and zero FollowRequest rows for the
pair, with both writes in the one returned store. -/
theorem acceptFollowRequest_spec_witness :
    ∃ req : FollowRequestRow,
      dbAccept.followRequests.find?
          (fun r => r.requesterId == 2 && r.targetId == 3) = some req ∧
      dbAcceptAfter.followers =
        dbAccept.followers ++
          [{ id := dbAccept.nextId, followerId := 2, followingId := 3 }] ∧
      dbAcceptAfter.followRequests =
        dbAccept.followRequests.filter (fun r => r.id != req.id) ∧
      dbAcceptAfter.followers.countP
        (fun f => f.followerId == 2 && f.followingId == 3) = 1 ∧
      dbAcceptAfter.followRequests.countP
        (fun r => r.requesterId == 2 && r.targetId == 3) = 0 :=
  (acceptFollowRequest_spec dbAccept 3 2 (by decide)).1
    "Follow request accepted." dbAcceptAfter rfl

/-- C2: rotation makes a consumed refresh token permanently unusable:
in any store whose stored token values are pairwise distinct and all
drawn from earlier nonces, if refreshTokens succeeds for token value t,
then a second refreshTokens call with the same t against the resulting
store fails Unauthorized at every later (or any) clock value. -/
theorem refreshTokens_rotation (db : Db) (t now now2 : Nat)
    (huniq : ∀ r ∈ db.refreshToken, ∀ s ∈ db.refreshToken, r.token = s.token → r = s)
    (hfresh : ∀ r ∈ db.refreshToken, r.token < db.nonce)
    (res : AccessToken × Nat) (db1 : Db)
    (hok : refreshTokens db t now = (.ok res, db1)) :
    refreshTokens db1 t now2 =
      (.error (.unauthorized "Invalid or expired refresh token"), db1) := by
  rcases hfind : db.refreshToken.find? (fun r => r.token == t && now ≤ r.expiryDate)
    with _ | fetched
  · simp only [refreshTokens, hfind] at hok
    simp at hok
  · have hmem : fetched ∈ db.refreshToken := List.mem_of_find?_eq_some hfind
    have hpred := List.find?_some hfind
    simp only [Bool.and_eq_true, beq_iff_eq, decide_eq_true_eq] at hpred
    simp only [refreshTokens, hfind, Prod.mk.injEq, Except.ok.injEq] at hok
    obtain ⟨hres, hdb⟩ := hok
    subst hdb
    have hnone : (db.refreshToken.map (fun r =>
        if r.id == fetched.id then
          { r with token := db.nonce, expiryDate := now + threeDaysMs }
        else r)).find? (fun r => r.token == t && now2 ≤ r.expiryDate) = none := by
      refine List.find?_eq_none.mpr ?_
      intro x hx hpx
      obtain ⟨r0, hr0mem, hr0eq⟩ := List.mem_map.mp hx
      simp only [Bool.and_eq_true, beq_iff_eq, decide_eq_true_eq] at hpx
      by_cases hid : (r0.id == fetched.id) = true
      · rw [if_pos hid] at hr0eq
        have hxt : x.token = db.nonce := by rw [← hr0eq]
        have : t < db.nonce := hpred.1 ▸ hfresh fetched hmem
        omega
      · rw [if_neg hid] at hr0eq
        subst hr0eq
        have : r0 = fetched := huniq r0 hr0mem fetched hmem (hpx.1.trans hpred.1.symm)
        subst this
        simp at hid
    simp only [refreshTokens, hnone]

/-- A store holding one live refresh token (value 0) for user 1. -/
def dbW2 : Db :=
  { dbEmpty with
    refreshToken := [{ id := 1, userId := 1, token := 0, expiryDate := 100 }],
    nonce := 1 }

/-- The store left by the witness call of refreshTokens: the row rotated
to the brand-new token value. -/
def dbW2After : Db :=
  { dbW2 with
    refreshToken := [{ id := 1, userId := 1, token := 1,
                       expiryDate := 50 + threeDaysMs }],
    nonce := 2 }

/-- Witness for C2 at a concrete input: after one successful refresh
with token value 0, a second refresh with the same value fails
Unauthorized. -/
theorem refreshTokens_rotation_witness :
    refreshTokens dbW2After 0 60 =
      (.error (.unauthorized "Invalid or expired refresh token"), dbW2After) :=
  refreshTokens_rotation dbW2 0 50 60 (by decide) (by decide)
    (jwtSign 1, 1) dbW2After rfl

/-- Well-formedness of the refresh-token table as maintained by the
operations: row ids are below the id supply, token values are below the
nonce supply, and ids, user ids and token values are each free of
duplicates across rows. The hypotheses of the rotation theorem are the
token-uniqueness and token-freshness components. -/
def tokenInv (db : Db) : Prop :=
  (∀ r ∈ db.refreshToken, r.id < db.nextId) ∧
  (∀ r ∈ db.refreshToken, r.token < db.nonce) ∧
  (∀ r ∈ db.refreshToken, ∀ s ∈ db.refreshToken, r.id = s.id → r = s) ∧
  (∀ r ∈ db.refreshToken, ∀ s ∈ db.refreshToken, r.userId = s.userId → r = s) ∧
  (∀ r ∈ db.refreshToken, ∀ s ∈ db.refreshToken, r.token = s.token → r = s)

/-- The empty store is well formed. -/
theorem tokenInv_dbEmpty : tokenInv dbEmpty := by
  refine ⟨?_, ?_, ?_, ?_, ?_⟩ <;> intro r hr <;> simp [dbEmpty] at hr

/-- The upsert performed by login (with the token drawn from the nonce
supply and the supply bumped) preserves well-formedness of the
refresh-token table. -/
theorem refreshTokenUpsert_tokenInv (db : Db) (uid exp : Nat) (hinv : tokenInv db) :
    tokenInv (refreshTokenUpsert { db with nonce := db.nonce + 1 } uid db.nonce exp) := by
  obtain ⟨hid, htok, hiduniq, huseruniq, htokuniq⟩ := hinv
  unfold refreshTokenUpsert
  rcases hany : db.refreshToken.any (fun r => r.userId == uid) with _ | _
  · simp only [hany, Bool.false_eq_true, if_false]
    have hnotuid : ∀ r ∈ db.refreshToken, r.userId ≠ uid := by
      intro r hr heq
      have : db.refreshToken.any (fun r => r.userId == uid) = true :=
        List.any_eq_true.mpr ⟨r, hr, by simp [heq]⟩
      rw [hany] at this
      exact Bool.false_ne_true this
    refine ⟨?_, ?_, ?_, ?_, ?_⟩
    · intro r hr
      rcases List.mem_append.mp hr with h | h
      · exact Nat.lt_trans (hid r h) (Nat.lt_succ_self _)
      · simp at h
        subst h
        exact Nat.lt_succ_self _
    · intro r hr
      rcases List.mem_append.mp hr with h | h
      · exact Nat.lt_trans (htok r h) (Nat.lt_succ_self _)
      · simp at h
        subst h
        exact Nat.lt_succ_self _
    · intro r hr s hs heq
      rcases List.mem_append.mp hr with h1 | h1 <;> rcases List.mem_append.mp hs with h2 | h2
      · exact hiduniq r h1 s h2 heq
      · simp at h2
        subst h2
        exact absurd heq (Nat.ne_of_lt (hid r h1))
      · simp at h1
        subst h1
        exact absurd heq.symm (Nat.ne_of_lt (hid s h2))
      · simp at h1 h2
        rw [h1, h2]
    · intro r hr s hs heq
      rcases List.mem_append.mp hr with h1 | h1 <;> rcases List.mem_append.mp hs with h2 | h2
      · exact huseruniq r h1 s h2 heq
      · simp at h2
        subst h2
        exact absurd heq (hnotuid r h1)
      · simp at h1
        subst h1
        exact absurd heq.symm (hnotuid s h2)
      · simp at h1 h2
        rw [h1, h2]
    · intro r hr s hs heq
      rcases List.mem_append.mp hr with h1 | h1 <;> rcases List.mem_append.mp hs with h2 | h2
      · exact htokuniq r h1 s h2 heq
      · simp at h2
        subst h2
        exact absurd heq (Nat.ne_of_lt (htok r h1))
      · simp at h1
        subst h1
        exact absurd heq.symm (Nat.ne_of_lt (htok s h2))
      · simp at h1 h2
        rw [h1, h2]
  · simp only [hany, if_true]
    refine ⟨?_, ?_, ?_, ?_, ?_⟩
    · intro r hr
      obtain ⟨r0, h0, hr0⟩ := List.mem_map.mp hr
      subst hr0
      by_cases hc : (r0.userId == uid) = true <;> simp only [hc, if_true, if_false] <;>
        exact hid r0 h0
    · intro r hr
      obtain ⟨r0, h0, hr0⟩ := List.mem_map.mp hr
      subst hr0
      by_cases hc : (r0.userId == uid) = true
      · simp only [hc, if_true]
        exact Nat.lt_succ_self _
      · simp only [hc, if_false]
        exact Nat.lt_trans (htok r0 h0) (Nat.lt_succ_self _)
    · intro r hr s hs heq
      obtain ⟨r0, h0, hr0⟩ := List.mem_map.mp hr
      obtain ⟨s0, h1, hs0⟩ := List.mem_map.mp hs
      subst hr0
      subst hs0
      have hids : r0.id = s0.id := by
        by_cases hc : (r0.userId == uid) = true <;>
          by_cases hd : (s0.userId == uid) = true <;>
          simp only [hc, hd, if_true, if_false] at heq <;> exact heq
      rw [hiduniq r0 h0 s0 h1 hids]
    · intro r hr s hs heq
      obtain ⟨r0, h0, hr0⟩ := List.mem_map.mp hr
      obtain ⟨s0, h1, hs0⟩ := List.mem_map.mp hs
      subst hr0
      subst hs0
      have huids : r0.userId = s0.userId := by
        by_cases hc : (r0.userId == uid) = true <;>
          by_cases hd : (s0.userId == uid) = true <;>
          simp only [hc, hd, if_true, if_false] at heq <;> exact heq
      rw [huseruniq r0 h0 s0 h1 huids]
    · intro r hr s hs heq
      obtain ⟨r0, h0, hr0⟩ := List.mem_map.mp hr
      obtain ⟨s0, h1, hs0⟩ := List.mem_map.mp hs
      subst hr0
      subst hs0
      by_cases hc : (r0.userId == uid) = true <;> by_cases hd : (s0.userId == uid) = true
      · have : r0.userId = s0.userId := by
          rw [beq_iff_eq] at hc hd
          rw [hc, hd]
        rw [huseruniq r0 h0 s0 h1 this]
      · simp only [hc, hd, if_true, if_false] at heq
        exact absurd heq.symm (Nat.ne_of_lt (htok s0 h1))
      · simp only [hc, hd, if_true, if_false] at heq
        exact absurd heq (Nat.ne_of_lt (htok r0 h0))
      · simp only [hc, hd, if_false] at heq
        rw [htokuniq r0 h0 s0 h1 heq]

/-- login preserves well-formedness of the refresh-token table, so the
rotation hypotheses hold in every store login leaves behind. -/
theorem login_preserves_tokenInv (db : Db) (dto : LoginDTO) (now : Nat)
    (res : Except Err LoginResult) (db1 : Db) (hinv : tokenInv db)
    (h : login db dto now = (res, db1)) : tokenInv db1 := by
  rcases hfind : db.users.find? (fun u => u.email == dto.email) with _ | user
  · simp only [login, hfind, Prod.mk.injEq] at h
    rw [← h.2]
    exact hinv
  · rcases hcmp : bcryptCompare dto.password user.password with _ | _
    · simp only [login, hfind, hcmp, Bool.false_eq_true, if_false, Prod.mk.injEq] at h
      rw [← h.2]
      exact hinv
    · simp only [login, hfind, hcmp, if_true, Prod.mk.injEq] at h
      rw [← h.2]
      exact refreshTokenUpsert_tokenInv db user.id (now + threeDaysMs) hinv

/-- refreshTokens preserves well-formedness of the refresh-token table,
so the rotation hypotheses keep holding across successive refreshes. -/
theorem refreshTokens_preserves_tokenInv (db : Db) (t now : Nat)
    (res : Except Err (AccessToken × Nat)) (db1 : Db) (hinv : tokenInv db)
    (h : refreshTokens db t now = (res, db1)) : tokenInv db1 := by
  rcases hfind : db.refreshToken.find? (fun r => r.token == t && now ≤ r.expiryDate)
    with _ | fetched
  · simp only [refreshTokens, hfind, Prod.mk.injEq] at h
    rw [← h.2]
    exact hinv
  · simp only [refreshTokens, hfind, Prod.mk.injEq] at h
    rw [← h.2]
    obtain ⟨hid, htok, hiduniq, huseruniq, htokuniq⟩ := hinv
    refine ⟨?_, ?_, ?_, ?_, ?_⟩
    · intro r hr
      obtain ⟨r0, h0, hr0⟩ := List.mem_map.mp hr
      subst hr0
      by_cases hc : (r0.id == fetched.id) = true <;> simp only [hc, if_true, if_false] <;>
        exact hid r0 h0
    · intro r hr
      obtain ⟨r0, h0, hr0⟩ := List.mem_map.mp hr
      subst hr0
      by_cases hc : (r0.id == fetched.id) = true
      · simp only [hc, if_true]
        exact Nat.lt_succ_self _
      · simp only [hc, if_false]
        exact Nat.lt_trans (htok r0 h0) (Nat.lt_succ_self _)
    · intro r hr s hs heq
      obtain ⟨r0, h0, hr0⟩ := List.mem_map.mp hr
      obtain ⟨s0, h1, hs0⟩ := List.mem_map.mp hs
      subst hr0
      subst hs0
      have hids : r0.id = s0.id := by
        by_cases hc : (r0.id == fetched.id) = true <;>
          by_cases hd : (s0.id == fetched.id) = true <;>
          simp only [hc, hd, if_true, if_false] at heq <;> exact heq
      rw [hiduniq r0 h0 s0 h1 hids]
    · intro r hr s hs heq
      obtain ⟨r0, h0, hr0⟩ := List.mem_map.mp hr
      obtain ⟨s0, h1, hs0⟩ := List.mem_map.mp hs
      subst hr0
      subst hs0
      have huids : r0.userId = s0.userId := by
        by_cases hc : (r0.id == fetched.id) = true <;>
          by_cases hd : (s0.id == fetched.id) = true <;>
          simp only [hc, hd, if_true, if_false] at heq <;> exact heq
      rw [huseruniq r0 h0 s0 h1 huids]
    · intro r hr s hs heq
      obtain ⟨r0, h0, hr0⟩ := List.mem_map.mp hr
      obtain ⟨s0, h1, hs0⟩ := List.mem_map.mp hs
      subst hr0
      subst hs0
      by_cases hc : (r0.id == fetched.id) = true <;>
        by_cases hd : (s0.id == fetched.id) = true
      · have hids : r0.id = s0.id := by
          rw [beq_iff_eq] at hc hd
          rw [hc, hd]
        rw [hiduniq r0 h0 s0 h1 hids]
      · simp only [hc, hd, if_true, if_false] at heq
        exact absurd heq.symm (Nat.ne_of_lt (htok s0 h1))
      · simp only [hc, hd, if_true, if_false] at heq
        exact absurd heq (Nat.ne_of_lt (htok r0 h0))
      · simp only [hc, hd, if_false] at heq
        rw [htokuniq r0 h0 s0 h1 heq]
